import Mathlib

/-!
Verification development for `wyoming_openclaw.py`, a Wyoming-protocol bridge
between a voice pipeline, an AI gateway, and an optional Home Assistant (HA)
instance.  The Python source is shallowly embedded below: pure helpers become
Lean functions on `String` / `List Char`, the four `re` patterns become a small
regular-expression AST with a backtracking matcher whose outcome order mirrors
CPython's `re` engine (leftmost alternative first, greedy quantifiers longest
first, lazy quantifiers shortest first), HTTP calls become oracle functions
returning `Except`, and Python exceptions become `Except.error` values.

Scope notes on the embedding:
* `str.lower` / `str.strip` / `\w` / `\s` are modelled at ASCII granularity
  (`Char.toLower`, the six ASCII whitespace characters, ASCII alphanumerics
  plus underscore); the source and all inputs of interest here are ASCII.
* Python dictionaries are modelled as association lists with distinct keys,
  looked up by first occurrence.
-/

/-- The six ASCII characters matched by Python's `str.strip()` and `\s`. -/
def pyWs (c : Char) : Bool :=
  c = ' ' || c = '\t' || c = '\n' || c = '\r' || c = '\x0b' || c = '\x0c'

/-- An apostrophe character, used inside the source's regex literals. -/
def apos : Char := '\''

/-- Python `str.lower()` (ASCII). -/
def pyLower (s : String) : String :=
  (s.toList.map Char.toLower).asString

/-- Python `str.strip()` (ASCII whitespace). -/
def pyStrip (s : String) : String :=
  (((s.toList.dropWhile pyWs).reverse.dropWhile pyWs).reverse).asString

/-- A character kept by `re.sub(r"[^\w\s]", "", ...)`: word char or whitespace. -/
def isWordChar (c : Char) : Bool := c.isAlphanum || c = '_'

/-- Worker for `re.sub(r"\s+", "_", ...)`: each maximal whitespace run becomes
one underscore.  The flag records whether we are inside a whitespace run. -/
def collapseWsGo : Bool → List Char → List Char
  | _, [] => []
  | inWs, c :: cs =>
    if pyWs c then
      if inWs then collapseWsGo true cs else '_' :: collapseWsGo true cs
    else c :: collapseWsGo false cs

/-- `re.sub(r"\s+", "_", s)`. -/
def collapseWs (l : List Char) : List Char := collapseWsGo false l

/-- Python `str.strip("_")`. -/
def stripUnderscore (l : List Char) : List Char :=
  ((l.dropWhile (fun c => c = '_')).reverse.dropWhile (fun c => c = '_')).reverse

/-- Worker for Python `str.replace(pat, "")` (left-to-right, non-overlapping).
The fuel starts at the list length, which bounds the number of steps. -/
def replaceAllGo (pat : List Char) : Nat → List Char → List Char
  | 0, l => l
  | _, [] => []
  | fuel + 1, c :: cs =>
    if pat ≠ [] ∧ pat.isPrefixOf (c :: cs) then
      replaceAllGo pat fuel ((c :: cs).drop pat.length)
    else c :: replaceAllGo pat fuel cs

/-- Python `s.replace(pat, "")`. -/
def replaceAllStr (pat s : String) : String :=
  (replaceAllGo pat.toList s.toList.length s.toList).asString

/-- Python `s.split(".")[0]`: the prefix before the first dot. -/
def firstDot (s : String) : String :=
  (s.toList.takeWhile (fun c => c ≠ '.')).asString

/-- Python `"\n".join(lines)`. -/
def joinNewline : List String → String
  | [] => ""
  | [x] => x
  | x :: xs => x ++ "\n" ++ joinNewline xs

/-- Python `s.replace(" ", "_")` (single-space pattern, hence charwise). -/
def spaceToUnderscore (s : String) : String :=
  (s.toList.map (fun c => if c = ' ' then '_' else c)).asString

/-! ## A small regex AST covering the four source patterns

Constructors cover exactly the constructs used on lines 97-100 of the source:
literals, ordered alternation, concatenation, greedy `\s+`, greedy `(?:...)?`,
the lazy capture `(.+?)`, the greedy capture `(.+)`, and `$`. -/

inductive Re where
  | lit (l : List Char)
  | alt (a b : Re)
  | seq (a b : Re)
  | wsPlus
  | opt (a : Re)
  | grpLazyDotPlus
  | grpGreedyDotPlus
  | eol
deriving Repr

/-- Length of the maximal leading whitespace run. -/
def wsRunLen : List Char → Nat
  | [] => 0
  | c :: cs => if pyWs c then wsRunLen cs + 1 else 0

/-- Length of the maximal leading run of `.`-matchable chars (any but `\n`). -/
def dotRunLen : List Char → Nat
  | [] => 0
  | c :: cs => if c = '\n' then 0 else dotRunLen cs + 1

/-- First-`some` of two optional captures (a group occurs once per pattern). -/
def mergeCap (a b : Option (List Char)) : Option (List Char) :=
  match a with
  | some x => some x
  | none => b

/-- All (capture, rest) outcomes of matching `r` at the head of `s`, listed in
CPython backtracking preference order; the head of the list is the outcome
`re.match` commits to. -/
def outcomes : Re → List Char → List (Option (List Char) × List Char)
  | .lit l, s => if l.isPrefixOf s then [(none, s.drop l.length)] else []
  | .alt a b, s => outcomes a s ++ outcomes b s
  | .seq a b, s =>
    (outcomes a s).flatMap fun p =>
      (outcomes b p.2).map fun q => (mergeCap p.1 q.1, q.2)
  | .wsPlus, s =>
    (List.range (wsRunLen s)).map fun i => (none, s.drop (wsRunLen s - i))
  | .opt a, s => outcomes a s ++ [(none, s)]
  | .grpLazyDotPlus, s =>
    (List.range (dotRunLen s)).map fun i => (some (s.take (i + 1)), s.drop (i + 1))
  | .grpGreedyDotPlus, s =>
    (List.range (dotRunLen s)).map fun i =>
      (some (s.take (dotRunLen s - i)), s.drop (dotRunLen s - i))
  | .eol, s => if s = [] ∨ s = ['\n'] then [(none, s)] else []

/-- `re.match`: the committed outcome's capture group (outer `Option`: did the
pattern match; inner `Option`: did the group participate). -/
def reMatchTop (r : Re) (s : List Char) : Option (Option (List Char)) :=
  ((outcomes r s).head?).map Prod.fst

/-- `re.search`: does the pattern match starting at any position? -/
def reSearchB (r : Re) (s : List Char) : Bool :=
  s.tails.any fun t => !(outcomes r t).isEmpty

/-! ## The four patterns of `OpenClawHandler` (source lines 97-100)

The source compiles them with `re.IGNORECASE`, but every use first lowercases
the subject text (line 158), so matching lowercase literals against the
lowered text is equivalent for ASCII input. -/

/-- `(?:turn|switch)\s+on\s+(?:the\s+)?(.+?)(?:\s+(?:light|switch|fan))?$` -/
def DEVICE_ON_PATTERN : Re :=
  .seq (.alt (.lit "turn".toList) (.lit "switch".toList))
    (.seq .wsPlus
      (.seq (.lit "on".toList)
        (.seq .wsPlus
          (.seq (.opt (.seq (.lit "the".toList) .wsPlus))
            (.seq .grpLazyDotPlus
              (.seq (.opt (.seq .wsPlus
                  (.alt (.lit "light".toList)
                    (.alt (.lit "switch".toList) (.lit "fan".toList)))))
                .eol))))))

/-- `(?:turn|switch)\s+off\s+(?:the\s+)?(.+?)(?:\s+(?:light|switch|fan))?$` -/
def DEVICE_OFF_PATTERN : Re :=
  .seq (.alt (.lit "turn".toList) (.lit "switch".toList))
    (.seq .wsPlus
      (.seq (.lit "off".toList)
        (.seq .wsPlus
          (.seq (.opt (.seq (.lit "the".toList) .wsPlus))
            (.seq .grpLazyDotPlus
              (.seq (.opt (.seq .wsPlus
                  (.alt (.lit "light".toList)
                    (.alt (.lit "switch".toList) (.lit "fan".toList)))))
                .eol))))))

/-- `what(?:'s| is)?\s+(?:the\s+)?(?:state|status|of)\s+(?:the\s+)?(.+)` -/
def GET_STATE_PATTERN : Re :=
  .seq (.lit "what".toList)
    (.seq (.opt (.alt (.lit [apos, 's']) (.lit " is".toList)))
      (.seq .wsPlus
        (.seq (.opt (.seq (.lit "the".toList) .wsPlus))
          (.seq (.alt (.lit "state".toList)
              (.alt (.lit "status".toList) (.lit "of".toList)))
            (.seq .wsPlus
              (.seq (.opt (.seq (.lit "the".toList) .wsPlus))
                .grpGreedyDotPlus))))))

/-- `(?:what(?:'s| is)\s+(?:on|active|connected)|list|show)\s+(?:all\s+)?(?:states|devices|entities)` -/
def GET_STATES_PATTERN : Re :=
  .seq (.alt
      (.seq (.lit "what".toList)
        (.seq (.alt (.lit [apos, 's']) (.lit " is".toList))
          (.seq .wsPlus
            (.alt (.lit "on".toList)
              (.alt (.lit "active".toList) (.lit "connected".toList))))))
      (.alt (.lit "list".toList) (.lit "show".toList)))
    (.seq .wsPlus
      (.seq (.opt (.seq (.lit "all".toList) .wsPlus))
        (.alt (.lit "states".toList)
          (.alt (.lit "devices".toList) (.lit "entities".toList)))))

/-- `DEVICE_ON_PATTERN.match(text)` with its group 1, as `String`s. -/
def devOnMatch (s : String) : Option (Option String) :=
  (reMatchTop DEVICE_ON_PATTERN s.toList).map (fun c => c.map List.asString)

/-- `DEVICE_OFF_PATTERN.match(text)` with its group 1. -/
def devOffMatch (s : String) : Option (Option String) :=
  (reMatchTop DEVICE_OFF_PATTERN s.toList).map (fun c => c.map List.asString)

/-- `GET_STATE_PATTERN.match(text)` with its group 1. -/
def getStateMatch (s : String) : Option (Option String) :=
  (reMatchTop GET_STATE_PATTERN s.toList).map (fun c => c.map List.asString)

/-- `GET_STATES_PATTERN.search(text)` as a Boolean. -/
def statesSearch (s : String) : Bool :=
  reSearchB GET_STATES_PATTERN s.toList

/-- `text.lower().strip()` (source line 158). -/
def proc (s : String) : String := pyStrip (pyLower s)

example : devOnMatch "turn on kitchen light" = some (some "kitchen") := by decide
example : devOnMatch "turn on the light" = some (some "light") := by decide
example : devOffMatch "turn off the living room lamp" = some (some "living room lamp") := by decide
example : devOnMatch "hello world" = none := by decide
example : statesSearch "list devices" = true := by decide
example : statesSearch "turn on kitchen light" = false := by decide
example : getStateMatch "what is the state of the kitchen" = some (some "of the kitchen") := by decide
example : getStateMatch "turn on kitchen light" = none := by decide
example : devOnMatch "turn on the" = some (some "the") := by decide
example : devOnMatch "turn on   light" = some (some "light") := by decide
example : devOnMatch "switch on the fan" = some (some "fan") := by decide
example : devOffMatch "turn off light switch" = some (some "light") := by decide
example : getStateMatch "what status bedroom" = some (some "bedroom") := by decide
example : getStateMatch "whatof x" = none := by decide
example : statesSearch "show all states" = true := by decide
example : statesSearch "please list all entities now" = true := by decide

/-! ## Entity resolution (`_guess_entity_id`, source lines 136-151) -/

/-- Python's substring test `pat in s`. -/
def listIsInfix (pat : List Char) : List Char → Bool
  | [] => pat.isEmpty
  | c :: cs => pat.isPrefixOf (c :: cs) || listIsInfix pat cs

/-- The keyword → domain table of `OpenClawHandler.DOMAIN_KEYWORDS`
(source lines 103-111), in Python dict insertion order. -/
def DOMAIN_KEYWORDS : List (String × String) :=
  [("light", "light"), ("lamp", "light"), ("switch", "switch"), ("fan", "fan"),
   ("cover", "cover"), ("blind", "cover"), ("curtain", "cover")]

/-- The two `re.sub` slugging steps plus `strip("_")` (source lines 149-150). -/
def slugify (name : String) : String :=
  (stripUnderscore (collapseWs (name.toList.filter
    (fun c => isWordChar c || pyWs c)))).asString

/-- Body of `_guess_entity_id` after its `name.lower().strip()` preprocessing:
first keyword of the table occurring in the name fixes the domain and is
removed (all occurrences) before slugging; default domain is `light`. -/
def guessFrom (name : String) : String :=
  match DOMAIN_KEYWORDS.find? (fun kd => listIsInfix kd.1.toList name.toList) with
  | some kd => kd.2 ++ "." ++ slugify (pyStrip (replaceAllStr kd.1 name))
  | none => "light" ++ "." ++ slugify name

/-- `OpenClawHandler._guess_entity_id` (source lines 136-151). -/
def guess_entity_id (name : String) : String :=
  guessFrom (pyStrip (pyLower name))

example : guess_entity_id "living room light" = "light.living_room" := by decide
example : guess_entity_id "kitchen fan" = "fan.kitchen" := by decide
example : guess_entity_id "foo-bar!!" = "light.foobar" := by decide
example : guess_entity_id "light" = "light." := by decide

/-! ## Python values and errors

`Py` models the JSON-decoded Python values flowing through the two HTTP
clients; `PyErr` models a raised exception by its `str()` rendering (for
`RuntimeError(msg)` that is `msg`). -/

inductive Py where
  | str (s : String)
  | int (n : Int)
  | list (xs : List Py)
  | dict (kv : List (String × Py))
  | none

structure PyErr where
  msg : String
deriving DecidableEq

/-- Python `d.get(k, dflt)` on a dict modelled with distinct keys. -/
def pyGet (kv : List (String × Py)) (k : String) (dflt : Py) : Py :=
  match kv.find? (fun p => p.1 = k) with
  | some p => p.2
  | Option.none => dflt

/-- Python truthiness of a value. -/
def pyTruthy : Py → Bool
  | .str s => !s.isEmpty
  | .int n => n ≠ 0
  | .list xs => !xs.isEmpty
  | .dict kv => !kv.isEmpty
  | .none => false

mutual
/-- Python `==` on modelled values (structural; dict comparison is modelled
order-sensitively, which coincides with Python for the key-distinct,
same-order dicts arising here). -/
def pyEqB : Py → Py → Bool
  | .str a, .str b => a = b
  | .int a, .int b => a = b
  | .list a, .list b => pyEqBList a b
  | .dict a, .dict b => pyEqBKVs a b
  | .none, .none => true
  | _, _ => false

def pyEqBList : List Py → List Py → Bool
  | [], [] => true
  | a :: as', b :: bs' => pyEqB a b && pyEqBList as' bs'
  | _, _ => false

def pyEqBKVs : List (String × Py) → List (String × Py) → Bool
  | [], [] => true
  | a :: as', b :: bs' => (a.1 = b.1 : Bool) && pyEqB a.2 b.2 && pyEqBKVs as' bs'
  | _, _ => false
end

mutual
/-- Python `repr()` on modelled values (string escaping not modelled). -/
def pyReprFn : Py → String
  | .str s => String.mk [apos] ++ s ++ String.mk [apos]
  | .int n => toString n
  | .list xs => "[" ++ pyReprList xs ++ "]"
  | .dict kv => "\x7b" ++ pyReprKVs kv ++ "\x7d"
  | .none => "None"

def pyReprList : List Py → String
  | [] => ""
  | [x] => pyReprFn x
  | x :: xs => pyReprFn x ++ ", " ++ pyReprList xs

def pyReprKVs : List (String × Py) → String
  | [] => ""
  | [p] => String.mk [apos] ++ p.1 ++ String.mk [apos] ++ ": " ++ pyReprFn p.2
  | p :: ps =>
    String.mk [apos] ++ p.1 ++ String.mk [apos] ++ ": " ++ pyReprFn p.2 ++ ", " ++
      pyReprKVs ps
end

/-- Python `str()` on modelled values (as used by f-strings and `str(result)`). -/
def pyStrFn : Py → String
  | .str s => s
  | v => pyReprFn v

/-! ## `HomeAssistantClient` (source lines 24-90)

Each method becomes a function of the data the HTTP layer would deliver:
a status code plus the decoded body.  A non-200 status raises `RuntimeError`,
modelled as `Except.error`. -/

/-- Python `entity_id or domain` (f-string on line 55): the entity id unless
it is `None` or empty. -/
def entityOrDomain : Option String → String → String
  | some e, d => if e = "" then d else e
  | none, d => d

/-- `HomeAssistantClient.call_service` (lines 40-57) as a function of the
response status and body text. -/
def call_service (domain service : String) (entity_id : Option String)
    (status : Nat) (bodyText : String) : Except PyErr String :=
  if status = 200 then
    .ok ("Done! " ++ service ++ " executed on " ++ entityOrDomain entity_id domain)
  else
    .error ⟨"HA API error: " ++ toString status ++ " - " ++ bodyText⟩

/-- `HomeAssistantClient.get_state` (lines 59-70) as a function of the
response status and decoded JSON body. -/
def get_state (entity_id : String) (status : Nat) (body : Py) : Except PyErr String :=
  if status = 200 then
    match body with
    | .dict kv =>
      let state := pyGet kv "state" (.str "unknown")
      match pyGet kv "attributes" (.dict []) with
      | .dict akv =>
        let friendly := pyGet akv "friendly_name" (.str entity_id)
        .ok (pyStrFn friendly ++ ": " ++ pyStrFn state)
      | _ => .error ⟨"AttributeError: object has no attribute get"⟩
    | _ => .error ⟨"AttributeError: object has no attribute get"⟩
  else .error ⟨"HA API error: " ++ toString status⟩

/-- One iteration of the loop body of `get_states` (lines 80-87): the line
produced for one entity record. -/
def stateLine (st : Py) : Except PyErr String :=
  match st with
  | .dict kv =>
    let entity_id := pyGet kv "entity_id" (.str "unknown")
    let state_val := pyGet kv "state" (.str "unknown")
    match pyGet kv "attributes" (.dict []) with
    | .dict akv =>
      let friendly := pyGet akv "friendly_name" (.str "")
      if pyTruthy friendly && !(pyEqB friendly entity_id) then
        .ok (pyStrFn friendly ++ ": " ++ pyStrFn state_val)
      else
        .ok (pyStrFn entity_id ++ ": " ++ pyStrFn state_val)
    | _ => .error ⟨"AttributeError: object has no attribute get"⟩
  | _ => .error ⟨"AttributeError: object has no attribute get"⟩

/-- The `lines` list built by the `for state in states[:20]` loop; an
exception in an iteration aborts the whole call. -/
def linesOf : List Py → Except PyErr (List String)
  | [] => .ok []
  | st :: rest =>
    match stateLine st with
    | .error e => .error e
    | .ok l =>
      match linesOf rest with
      | .error e => .error e
      | .ok ls => .ok (l :: ls)

/-- `HomeAssistantClient.get_states` (lines 72-90) as a function of the
response status and decoded JSON array. -/
def get_states (status : Nat) (states : List Py) : Except PyErr String :=
  if status = 200 then
    match linesOf (states.take 20) with
    | .ok lines => .ok (joinNewline lines)
    | .error e => .error e
  else .error ⟨"HA API error: " ++ toString status⟩

/-! ## AI-gateway reply extraction (`_call_openclaw`, source lines 273-310) -/

/-- Python `reversed(x)` as used on line 298: reverses a list, iterates a
string's characters in reverse, iterates a dict's keys in reverse; anything
else raises `TypeError`. -/
def reversedSeq : Py → Except PyErr (List Py)
  | .list xs => .ok xs.reverse
  | .str s => .ok ((s.toList.reverse).map fun c => .str (String.mk [c]))
  | .dict kv => .ok ((kv.map fun p => Py.str p.1).reverse)
  | _ => .error ⟨"TypeError: object is not reversible"⟩

/-- The inner `for part in content` loop (lines 302-306): first text-bearing
part, `Except.error` when a part is not a dict (Python `part.get` raises). -/
def scanParts : List Py → Except PyErr (Option Py)
  | [] => .ok none
  | p :: rest =>
    match p with
    | .dict kv =>
      if pyEqB (pyGet kv "type" .none) (.str "output_text") then
        .ok (some (pyGet kv "text" (.str "")))
      else if pyEqB (pyGet kv "type" .none) (.str "text") then
        .ok (some (pyGet kv "text" (.str "")))
      else scanParts rest
    | _ => .error ⟨"AttributeError: object has no attribute get"⟩

/-- The outer `for item in reversed(output)` loop (lines 298-308), already
given the reversed item list; falls back to `str(result)` (line 309). -/
def scanItems (result : Py) : List Py → Except PyErr Py
  | [] => .ok (.str (pyStrFn result))
  | it :: rest =>
    match it with
    | .dict kv =>
      if pyEqB (pyGet kv "type" .none) (.str "message") &&
          pyEqB (pyGet kv "role" .none) (.str "assistant") then
        match pyGet kv "content" (.list []) with
        | .list parts =>
          match scanParts parts with
          | .error e => .error e
          | .ok (some t) => .ok t
          | .ok none => scanItems result rest
        | .str s => .ok (.str s)
        | _ => scanItems result rest
      else scanItems result rest
    | _ => .error ⟨"AttributeError: object has no attribute get"⟩

/-- The 200-response extraction of `_call_openclaw` (lines 294-310), given the
decoded JSON body. -/
def extractReply (result : Py) : Except PyErr Py :=
  match result with
  | .dict kv =>
    match reversedSeq (pyGet kv "output" (.list [])) with
    | .error e => .error e
    | .ok items => scanItems result items
  | r => .ok (.str (pyStrFn r))

/-- `_call_openclaw` (lines 273-310) as a function of the response status,
body text and decoded JSON body. -/
def call_openclaw (status : Nat) (bodyText : String) (result : Py) :
    Except PyErr Py :=
  if status ≠ 200 then
    .error ⟨"OpenClaw API error: " ++ toString status ++ " - " ++ bodyText⟩
  else extractReply result

/-! ### Declarative view of the extraction, used to state its specification -/

/-- The text value a content part would make line 304/306 return, if any. -/
def partText (p : Py) : Option Py :=
  match p with
  | .dict kv =>
    if pyEqB (pyGet kv "type" .none) (.str "output_text") ||
        pyEqB (pyGet kv "type" .none) (.str "text") then
      some (pyGet kv "text" (.str ""))
    else none
  | _ => none

/-- Whether a dict's entries make it an assistant message (line 299). -/
def isAssistantMessage (kv : List (String × Py)) : Bool :=
  pyEqB (pyGet kv "type" .none) (.str "message") &&
    pyEqB (pyGet kv "role" .none) (.str "assistant")

/-- The reply an output item would produce, if any: for an assistant message,
the first text-bearing part of a list content, or a bare string content. -/
def itemReply (it : Py) : Option Py :=
  match it with
  | .dict kv =>
    if isAssistantMessage kv then
      match pyGet kv "content" (.list []) with
      | .list parts => parts.findSome? partText
      | .str s => some (.str s)
      | _ => none
    else none
  | _ => none

/-- A content part the code can inspect without raising: a dict. -/
def wfPart : Py → Bool
  | .dict _ => true
  | _ => false

/-- An output item the code can process without raising: a dict whose content
parts, when it is an assistant message with list content, are all dicts. -/
def wfItem : Py → Bool
  | .dict kv =>
    if isAssistantMessage kv then
      match pyGet kv "content" (.list []) with
      | .list parts => parts.all wfPart
      | _ => true
    else true
  | _ => false

/-! ## Intent classification

The source has no standalone classifier; `_handle_device_command`
(lines 153-203) interleaves pattern dispatch with the backend calls.
`classify` is exactly its decision structure — which pattern, if any, selects
the first attempted action — with the calls erased; the effectful translation
`handleDeviceCommand` below follows the source's control flow in full. -/

/-- `match.group(1).strip() if match.group(1) else ""` (lines 163/175/187). -/
def entityOf : Option String → String
  | some g => if g = "" then "" else pyStrip g
  | none => ""

inductive Intent where
  | deviceOn (name : String)
  | deviceOff (name : String)
  | readState (name : String)
  | readAll
  | none
deriving DecidableEq, Repr

/-- Classification step 4: the `GET_STATES_PATTERN.search` branch (line 196). -/
def classifyStates (text : String) : Intent :=
  if statesSearch text then .readAll else .none

/-- Classification step 3: the `GET_STATE_PATTERN` branch (lines 185-188). -/
def classifyState (text : String) : Intent :=
  match getStateMatch text with
  | some g =>
    let e := entityOf g
    if e ≠ "" then .readState e else classifyStates text
  | Option.none => classifyStates text

/-- Classification step 2: the `DEVICE_OFF_PATTERN` branch (lines 173-176). -/
def classifyOff (text : String) : Intent :=
  match devOffMatch text with
  | some g =>
    let e := entityOf g
    if e ≠ "" then .deviceOff e else classifyState text
  | Option.none => classifyState text

/-- The intent decided by `_handle_device_command`'s pattern cascade for the
(lowered, stripped) transcript text. -/
def classify (text0 : String) : Intent :=
  let text := proc text0
  match devOnMatch text with
  | some g =>
    let e := entityOf g
    if e ≠ "" then .deviceOn e else classifyOff text
  | Option.none => classifyOff text

example : classify "Turn on the Kitchen Light" = .deviceOn "kitchen" := by decide
example : classify "turn off the living room lamp" = .deviceOff "living room lamp" := by decide
example : classify "hello world" = .none := by decide
example : classify "list devices" = .readAll := by decide

/-! ## Session handler (`OpenClawHandler`, source lines 153-325)

The configured Home Assistant client is an oracle giving the outcome of each
of its three operations; the AI gateway is an oracle from the utterance to the
reply.  Every backend invocation is recorded in a `Call` trace so that the
theorems can speak about which backends a turn touched. -/

structure HAOracle where
  callService : String → String → Option String → Except PyErr String
  getState : String → Except PyErr String
  getStates : Except PyErr String

inductive HACall where
  | callService (domain service : String) (entity_id : Option String)
  | getState (entity_id : String)
  | getStates
deriving DecidableEq, Repr

inductive Call where
  | ha (c : HACall)
  | openclaw (text : String)
deriving DecidableEq, Repr

/-- The `DEVICE_ON_PATTERN` block of `_handle_device_command`
(lines 161-170): `(some r, trace)` when the block returns `r`, `(none, trace)`
when execution falls through (no match, empty entity, or swallowed
exception). -/
def stageOn (ha : HAOracle) (text : String) : Option String × List Call :=
  match devOnMatch text with
  | some g =>
    let entity := entityOf g
    if entity = "" then (none, [])
    else
      let entity_id := guess_entity_id entity
      let domain := firstDot entity_id
      match ha.callService domain "turn_on" (some entity_id) with
      | .ok r => (some r, [.ha (.callService domain "turn_on" (some entity_id))])
      | .error _ => (none, [.ha (.callService domain "turn_on" (some entity_id))])
  | Option.none => (none, [])

/-- The `DEVICE_OFF_PATTERN` block (lines 172-182). -/
def stageOff (ha : HAOracle) (text : String) : Option String × List Call :=
  match devOffMatch text with
  | some g =>
    let entity := entityOf g
    if entity = "" then (none, [])
    else
      let entity_id := guess_entity_id entity
      let domain := firstDot entity_id
      match ha.callService domain "turn_off" (some entity_id) with
      | .ok r => (some r, [.ha (.callService domain "turn_off" (some entity_id))])
      | .error _ => (none, [.ha (.callService domain "turn_off" (some entity_id))])
  | Option.none => (none, [])

/-- The `GET_STATE_PATTERN` block (lines 184-193). -/
def stageState (ha : HAOracle) (text : String) : Option String × List Call :=
  match getStateMatch text with
  | some g =>
    let entity := entityOf g
    if entity = "" then (none, [])
    else
      let entity_id := spaceToUnderscore entity
      match ha.getState entity_id with
      | .ok r => (some r, [.ha (.getState entity_id)])
      | .error _ => (none, [.ha (.getState entity_id)])
  | Option.none => (none, [])

/-- The `GET_STATES_PATTERN` block (lines 195-201): unlike the other blocks,
its failure is returned to the caller as an error string. -/
def stageStates (ha : HAOracle) (text : String) : Option String × List Call :=
  if statesSearch text then
    match ha.getStates with
    | .ok r => (some r, [.ha .getStates])
    | .error e => (some ("Error getting states: " ++ e.msg), [.ha .getStates])
  else (none, [])

/-- `OpenClawHandler._handle_device_command` (lines 153-203): `none` when no
Home Assistant client is configured or no block produced a result. -/
def handleDeviceCommand (haOpt : Option HAOracle) (text0 : String) :
    Option String × List Call :=
  match haOpt with
  | Option.none => (none, [])
  | some ha =>
    let text := proc text0
    let r1 := stageOn ha text
    match r1.1 with
    | some r => (some r, r1.2)
    | Option.none =>
      let r2 := stageOff ha text
      match r2.1 with
      | some r => (some r, r1.2 ++ r2.2)
      | Option.none =>
        let r3 := stageState ha text
        match r3.1 with
        | some r => (some r, r1.2 ++ r2.2 ++ r3.2)
        | Option.none =>
          let r4 := stageStates ha text
          (r4.1, r1.2 ++ r2.2 ++ r3.2 ++ r4.2)

/-- The session configuration visible to one handler: the optional Home
Assistant oracle and the AI-gateway oracle. -/
structure Env where
  ha : Option HAOracle
  openclaw : String → Except PyErr String

inductive WyEvent where
  | describe
  | transcript (text : String)
  | other
deriving DecidableEq, Repr

inductive OutEvent where
  | info
  | handled (text : String)
  | notHandled (text : String)
deriving DecidableEq, Repr

/-- Lines 254-266 of `handle_event`: call the gateway, write `Handled` on
success, catch any raised error and write `NotHandled` with `f"Error: {e}"`. -/
def gatewayTurn (env : Env) (text : String) (calls : List Call) :
    List OutEvent × Bool × List Call :=
  match env.openclaw text with
  | .ok s => ([.handled s], true, calls ++ [.openclaw text])
  | .error e => ([.notHandled ("Error: " ++ e.msg)], true, calls ++ [.openclaw text])

/-- `OpenClawHandler.handle_event` (lines 205-271): the outbound events
written, the returned Boolean, and the backend calls made.  A truthy
(non-empty) device response is written as `Handled`; a falsy one falls
through to the gateway (line 248's `if device_response:`). -/
def handle_event (env : Env) (ev : WyEvent) : List OutEvent × Bool × List Call :=
  match ev with
  | .describe => ([.info], true, [])
  | .transcript text =>
    let dr := handleDeviceCommand env.ha text
    match dr.1 with
    | some r => if r ≠ "" then ([.handled r], true, dr.2) else gatewayTurn env text dr.2
    | Option.none => gatewayTurn env text dr.2
  | .other => ([], true, [])

/-- `OpenClawHandler.run` (lines 312-325): the inbound stream is the event
list; reading past its end yields `None` and breaks the loop, and a `False`
from `handle_event` would also break it. -/
def runLoop (env : Env) : List WyEvent → List OutEvent
  | [] => []
  | ev :: rest =>
    let r := handle_event env ev
    if r.2.1 then r.1 ++ runLoop env rest else r.1

example :
    handle_event ⟨none, fun _ => .ok "hi"⟩ (.transcript "turn on kitchen light") =
      ([.handled "hi"], true, [.openclaw "turn on kitchen light"]) := by decide

example :
    handle_event
      ⟨some ⟨fun _ _ _ => .error ⟨"boom"⟩, fun _ => .error ⟨"x"⟩, .error ⟨"y"⟩⟩,
       fun _ => .ok "sunny"⟩
      (.transcript "turn on kitchen light") =
      ([.handled "sunny"], true,
       [.ha (.callService "light" "turn_on" (some "light.kitchen")),
        .openclaw "turn on kitchen light"]) := by decide

example :
    handle_event
      ⟨some ⟨fun d s e => call_service d s e 200 "", fun _ => .error ⟨"x"⟩, .error ⟨"y"⟩⟩,
       fun _ => .ok "unused"⟩
      (.transcript "turn off the living room lamp") =
      ([.handled "Done! turn_off executed on light.living_room"], true,
       [.ha (.callService "light" "turn_off" (some "light.living_room"))]) := by decide

/-! ## Shared helper lemmas -/

theorem append_left_ne_empty (s t : String) (hs : s.data ≠ []) : s ++ t ≠ "" := by
  intro h
  apply hs
  have hd := congrArg String.data h
  rw [String.data_append] at hd
  rw [show ("" : String).data = [] from rfl] at hd
  exact (List.append_eq_nil.mp hd).1

/-- The gateway turn always writes exactly one event, `Handled` on success and
`NotHandled` on error. -/
theorem gatewayTurn_shape (env : Env) (text : String) (calls : List Call) :
    (∃ s, (gatewayTurn env text calls).1 = [.handled s]) ∨
      (∃ s, (gatewayTurn env text calls).1 = [.notHandled s]) := by
  cases h : env.openclaw text with
  | ok s => exact .inl ⟨s, by simp [gatewayTurn, h]⟩
  | error e => exact .inr ⟨"Error: " ++ e.msg, by simp [gatewayTurn, h]⟩

theorem gatewayTurn_continues (env : Env) (text : String) (calls : List Call) :
    (gatewayTurn env text calls).2.1 = true := by
  cases h : env.openclaw text with
  | ok s => simp [gatewayTurn, h]
  | error e => simp [gatewayTurn, h]

/-- `handle_event` always returns `True` (line 268/239/271), so the `run` loop
only stops at end of stream. -/
theorem handle_event_continues (env : Env) (ev : WyEvent) :
    (handle_event env ev).2.1 = true := by
  cases ev with
  | describe => rfl
  | other => rfl
  | transcript text =>
    simp only [handle_event]
    cases hdr : (handleDeviceCommand env.ha text).1 with
    | none => exact gatewayTurn_continues env text _
    | some r =>
      by_cases hr : r = ""
      · simpa [hr] using gatewayTurn_continues env text _
      · simp [hr]

/-- C1: for every inbound transcript event, the handler writes exactly one
outbound event — a `handled` or a `not-handled` event — never zero and never
more than one, whatever the device-control path, the gateway path, or an
error branch did. -/
theorem c1_transcript_exactly_one_response (env : Env) (text : String) :
    ((handle_event env (.transcript text)).1).length = 1 ∧
      ((∃ s, (handle_event env (.transcript text)).1 = [.handled s]) ∨
       (∃ s, (handle_event env (.transcript text)).1 = [.notHandled s])) := by
  have main : (∃ s, (handle_event env (.transcript text)).1 = [.handled s]) ∨
      (∃ s, (handle_event env (.transcript text)).1 = [.notHandled s]) := by
    simp only [handle_event]
    cases hdr : (handleDeviceCommand env.ha text).1 with
    | none => exact gatewayTurn_shape env text _
    | some r =>
      by_cases hr : r = ""
      · simpa [hr] using gatewayTurn_shape env text _
      · exact .inl ⟨r, by simp [hr]⟩
  refine ⟨?_, main⟩
  rcases main with ⟨s, hs⟩ | ⟨s, hs⟩ <;> simp [hs]

/-- C3: a raised error while handling a transcript turn (gateway failure or
otherwise) yields a `not-handled` event embedding the error description, and
the loop goes on to the next event instead of tearing the session down. -/
theorem c3_turn_error_not_handled_session_survives (env : Env) (text : String)
    (err : PyErr) (rest : List WyEvent)
    (hdev : (handleDeviceCommand env.ha text).1 = none)
    (hgw : env.openclaw text = .error err) :
    (handle_event env (.transcript text)).1 =
        [.notHandled ("Error: " ++ err.msg)] ∧
      runLoop env (.transcript text :: rest) =
        .notHandled ("Error: " ++ err.msg) :: runLoop env rest := by
  have h1 : (handle_event env (.transcript text)).1 =
      [.notHandled ("Error: " ++ err.msg)] := by
    simp only [handle_event]
    rw [hdev]
    simp [gatewayTurn, hgw]
  refine ⟨h1, ?_⟩
  simp only [runLoop]
  rw [handle_event_continues env (.transcript text)]
  simp [h1]

/-- C3 witness: a session whose gateway always fails still answers the failed
turn with `NotHandled` and processes the rest of the stream. -/
theorem c3_witness :
    (handle_event ⟨none, fun _ => .error ⟨"OpenClaw API error: 500 - down"⟩⟩
        (.transcript "what is the meaning of life")).1 =
        [.notHandled ("Error: " ++ "OpenClaw API error: 500 - down")] ∧
      runLoop ⟨none, fun _ => .error ⟨"OpenClaw API error: 500 - down"⟩⟩
          (.transcript "what is the meaning of life" :: [.describe]) =
        .notHandled ("Error: " ++ "OpenClaw API error: 500 - down") ::
          runLoop ⟨none, fun _ => .error ⟨"OpenClaw API error: 500 - down"⟩⟩
            [.describe] :=
  c3_turn_error_not_handled_session_survives
    ⟨none, fun _ => .error ⟨"OpenClaw API error: 500 - down"⟩⟩
    "what is the meaning of life" ⟨"OpenClaw API error: 500 - down"⟩
    [.describe] rfl rfl

/-- C4: when the transcript matches the read-all-states pattern and the bulk
read fails, the error string is returned directly as the turn's result (a
`Handled` event) and the gateway is never called. -/
theorem c4_read_all_states_error_surfaces_directly (ha : HAOracle)
    (gw : String → Except PyErr String) (err : PyErr)
    (hsts : ha.getStates = .error err) :
    handle_event ⟨some ha, gw⟩ (.transcript "list devices") =
      ([.handled ("Error getting states: " ++ err.msg)], true, [.ha .getStates]) := by
  have h1 : devOnMatch (proc "list devices") = none := by decide
  have h2 : devOffMatch (proc "list devices") = none := by decide
  have h3 : getStateMatch (proc "list devices") = none := by decide
  have h4 : statesSearch (proc "list devices") = true := by decide
  have hne : ("Error getting states: " ++ err.msg) ≠ "" :=
    append_left_ne_empty _ _ (by decide)
  simp [handle_event, handleDeviceCommand, stageOn, stageOff, stageState,
    stageStates, h1, h2, h3, h4, hsts, hne]

/-- C4 witness: concrete failing bulk read. -/
theorem c4_witness :
    handle_event
        ⟨some ⟨fun _ _ _ => .ok "unused", fun _ => .ok "unused",
          .error ⟨"HA API error: 503"⟩⟩, fun _ => .ok "gw"⟩
        (.transcript "list devices") =
      ([.handled ("Error getting states: " ++ "HA API error: 503")], true,
       [.ha .getStates]) :=
  c4_read_all_states_error_surfaces_directly
    ⟨fun _ _ _ => .ok "unused", fun _ => .ok "unused", .error ⟨"HA API error: 503"⟩⟩
    (fun _ => .ok "gw") ⟨"HA API error: 503"⟩ rfl

/-- C2: with the automation client configured, a matching "turn on kitchen
light" utterance whose service invocation raises is swallowed (the call is
made, its error discarded) and the turn falls through to the AI gateway,
producing a `Handled` event with the gateway's text, not a `NotHandled`
error. -/
theorem c2_device_error_swallowed_falls_through_to_gateway (ha : HAOracle)
    (gw : String → Except PyErr String) (err : PyErr) (reply : String)
    (hfail : ∀ d s e, ha.callService d s e = .error err)
    (hgw : gw "turn on kitchen light" = .ok reply) :
    (handle_event ⟨some ha, gw⟩ (.transcript "turn on kitchen light") =
      ([.handled reply], true,
       [.ha (.callService "light" "turn_on" (some "light.kitchen")),
        .openclaw "turn on kitchen light"])) ∧
      ∀ (ha' : HAOracle) (t : String) (e' : PyErr),
        (∀ d s en, ha'.callService d s en = .error e') →
        (stageOn ha' t).1 = none ∧ (stageOff ha' t).1 = none := by
  refine ⟨?_, ?_⟩
  case refine_2 =>
    intro ha' t e' hfail'
    constructor
    · unfold stageOn
      cases hm : devOnMatch t with
      | none => rfl
      | some g =>
        by_cases he : entityOf g = "" <;> simp [he, hfail']
    · unfold stageOff
      cases hm : devOffMatch t with
      | none => rfl
      | some g =>
        by_cases he : entityOf g = "" <;> simp [he, hfail']
  have hon : devOnMatch (proc "turn on kitchen light") = some (some "kitchen") := by
    decide
  have hoff : devOffMatch (proc "turn on kitchen light") = none := by decide
  have hst : getStateMatch (proc "turn on kitchen light") = none := by decide
  have hsts : statesSearch (proc "turn on kitchen light") = false := by decide
  have hent : entityOf (some "kitchen") = "kitchen" := by decide
  have hne : ¬(("kitchen" : String) = "") := by decide
  have hgid : guess_entity_id "kitchen" = "light.kitchen" := by decide
  have hfd : firstDot "light.kitchen" = "light" := by decide
  simp [handle_event, handleDeviceCommand, stageOn, stageOff, stageState,
    stageStates, gatewayTurn, hon, hoff, hst, hsts, hent, hne, hgid, hfd,
    hfail, hgw]

/-- C2 witness: concrete always-raising automation client and concrete
gateway reply. -/
theorem c2_witness :
    handle_event
        ⟨some ⟨fun _ _ _ => .error ⟨"connect timeout"⟩, fun _ => .ok "u",
          .ok "u"⟩, fun _ => .ok "It is sunny."⟩
        (.transcript "turn on kitchen light") =
      ([.handled "It is sunny."], true,
       [.ha (.callService "light" "turn_on" (some "light.kitchen")),
        .openclaw "turn on kitchen light"]) :=
  (c2_device_error_swallowed_falls_through_to_gateway
    ⟨fun _ _ _ => .error ⟨"connect timeout"⟩, fun _ => .ok "u", .ok "u"⟩
    (fun _ => .ok "It is sunny.") ⟨"connect timeout"⟩ "It is sunny."
    (fun _ _ _ => rfl) rfl).1

/-- C9: with automation configured and the service invocation answered with
HTTP 200, the utterance "turn off the living room lamp" yields exactly the
response text "Done! turn_off executed on light.living_room", written as a
`Handled` event, with a single service call and no gateway call. -/
theorem c9_turn_off_living_room_lamp_success_text
    (gw : String → Except PyErr String) (gs : String → Except PyErr String)
    (gss : Except PyErr String) :
    handle_event
        ⟨some ⟨fun d s e => call_service d s e 200 "", gs, gss⟩, gw⟩
        (.transcript "turn off the living room lamp") =
      ([.handled "Done! turn_off executed on light.living_room"], true,
       [.ha (.callService "light" "turn_off" (some "light.living_room"))]) := by
  have hon : devOnMatch (proc "turn off the living room lamp") = none := by decide
  have hoff : devOffMatch (proc "turn off the living room lamp") =
      some (some "living room lamp") := by decide
  have hent : entityOf (some "living room lamp") = "living room lamp" := by decide
  have hne : ¬(("living room lamp" : String) = "") := by decide
  have hgid : guess_entity_id "living room lamp" = "light.living_room" := by decide
  have hfd : firstDot "light.living_room" = "light" := by decide
  have hcs : call_service "light" "turn_off" (some "light.living_room") 200 "" =
      .ok "Done! turn_off executed on light.living_room" := rfl
  have hne2 : ¬(("Done! turn_off executed on light.living_room" : String) = "") := by
    decide
  simp [handle_event, handleDeviceCommand, stageOn, stageOff, hon, hoff, hent,
    hne, hgid, hfd, hcs, hne2]

/-- C10: a device name that is (after lowering and stripping) exactly a
domain keyword slugs to the empty string, producing the malformed entity id
`"<domain>."`; and for the utterance "turn on the light" that id is what the
service invocation receives. -/
theorem c10_bare_keyword_yields_dangling_dot_entity_id :
    (∀ name kw dom, (kw, dom) ∈ DOMAIN_KEYWORDS →
        pyStrip (pyLower name) = kw → guess_entity_id name = dom ++ ".") ∧
      (∀ ha gw,
        ((handle_event ⟨some ha, gw⟩ (.transcript "turn on the light")).2.2).head? =
          some (.ha (.callService "light" "turn_on" (some "light.")))) := by
  constructor
  · intro name kw dom hmem hname
    have hg : guess_entity_id name = guessFrom kw := by
      rw [guess_entity_id, hname]
    rw [hg]
    simp only [DOMAIN_KEYWORDS, List.mem_cons, List.mem_singleton,
      Prod.mk.injEq, List.not_mem_nil, or_false] at hmem
    rcases hmem with ⟨rfl, rfl⟩ | ⟨rfl, rfl⟩ | ⟨rfl, rfl⟩ | ⟨rfl, rfl⟩ |
      ⟨rfl, rfl⟩ | ⟨rfl, rfl⟩ | ⟨rfl, rfl⟩ <;> decide
  · intro ha gw
    have hon : devOnMatch (proc "turn on the light") = some (some "light") := by
      decide
    have hent : entityOf (some "light") = "light" := by decide
    have hne : ¬(("light" : String) = "") := by decide
    have hgid : guess_entity_id "light" = "light." := by decide
    have hfd : firstDot "light." = "light" := by decide
    have hoff : devOffMatch (proc "turn on the light") = none := by decide
    have hst : getStateMatch (proc "turn on the light") = none := by decide
    have hsts : statesSearch (proc "turn on the light") = false := by decide
    cases hcs : ha.callService "light" "turn_on" (some "light.") with
    | ok r =>
      by_cases hr : r = ""
      · simp [handle_event, handleDeviceCommand, stageOn, stageOff, stageState,
          stageStates, gatewayTurn, hon, hent, hne, hgid, hfd, hoff, hst, hsts,
          hcs, hr]
        cases hgw : gw "turn on the light" <;> simp [hgw]
      · simp [handle_event, handleDeviceCommand, stageOn, stageOff, stageState,
          stageStates, gatewayTurn, hon, hent, hne, hgid, hfd, hoff, hst, hsts,
          hcs, hr]
    | error e =>
      simp [handle_event, handleDeviceCommand, stageOn, stageOff, stageState,
        stageStates, gatewayTurn, hon, hent, hne, hgid, hfd, hoff, hst, hsts,
        hcs]
      cases hgw : gw "turn on the light" <;> simp [hgw]

/-- C10 witness: a bare-keyword name resolves to `"light."`, and a concrete
session passes that id to the service call. -/
theorem c10_witness :
    guess_entity_id " LIGHT " = "light" ++ "." ∧
      ((handle_event
          ⟨some ⟨fun _ _ _ => .ok "ok", fun _ => .ok "u", .ok "u"⟩,
           fun _ => .ok "gw"⟩
          (.transcript "turn on the light")).2.2).head? =
        some (.ha (.callService "light" "turn_on" (some "light."))) :=
  ⟨c10_bare_keyword_yields_dangling_dot_entity_id.1 " LIGHT " "light" "light"
      (by decide) (by decide),
   c10_bare_keyword_yields_dangling_dot_entity_id.2
      ⟨fun _ _ _ => .ok "ok", fun _ => .ok "u", .ok "u"⟩ (fun _ => .ok "gw")⟩

/-! ### Classifier lemmas -/

theorem classifyStates_not_device (text n : String) :
    classifyStates text ≠ .deviceOn n ∧ classifyStates text ≠ .deviceOff n := by
  unfold classifyStates
  split <;> simp

theorem classifyState_not_device (text n : String) :
    classifyState text ≠ .deviceOn n ∧ classifyState text ≠ .deviceOff n := by
  unfold classifyState
  cases h : getStateMatch text with
  | none => exact classifyStates_not_device text n
  | some g =>
    by_cases he : entityOf g = ""
    · simpa [he] using classifyStates_not_device text n
    · simp [he]

theorem classifyOff_cases (text n : String) :
    (classifyOff text = .deviceOff n → n ≠ "") ∧ classifyOff text ≠ .deviceOn n := by
  unfold classifyOff
  cases h : devOffMatch text with
  | none =>
    exact ⟨fun hc => absurd hc (classifyState_not_device text n).2,
           (classifyState_not_device text n).1⟩
  | some g =>
    by_cases he : entityOf g = ""
    · simp only [he, ne_eq, not_true, ite_false]
      exact ⟨fun hc => absurd hc (classifyState_not_device text n).2,
             (classifyState_not_device text n).1⟩
    · refine ⟨?_, by simp [he]⟩
      intro hc
      simp [he] at hc
      rw [← hc]
      exact he

/-- C6: an utterance matching the anchored turn-on (resp. turn-off) pattern
with a cleanly stripped name classifies as the corresponding device intent
with that non-empty name; an utterance matching no pattern classifies as
`none`; and no device intent ever carries an empty name, so an unclean match
can never trigger a device call. -/
theorem c6_classification (t : String) :
    (∀ g, devOnMatch (proc t) = some (some g) → pyStrip g ≠ "" →
        classify t = .deviceOn (pyStrip g) ∧ pyStrip g ≠ "") ∧
      (devOnMatch (proc t) = none →
        ∀ g, devOffMatch (proc t) = some (some g) → pyStrip g ≠ "" →
          classify t = .deviceOff (pyStrip g)) ∧
      (devOnMatch (proc t) = none → devOffMatch (proc t) = none →
        getStateMatch (proc t) = none → statesSearch (proc t) = false →
        classify t = .none) ∧
      (∀ n, classify t = .deviceOn n ∨ classify t = .deviceOff n → n ≠ "") := by
  refine ⟨?_, ?_, ?_, ?_⟩
  · intro g hm hg
    have hg0 : g ≠ "" := fun h0 => hg (by rw [h0]; rfl)
    simp only [classify]
    rw [hm]
    simp [entityOf, hg0, hg]
  · intro hon g hm hg
    have hg0 : g ≠ "" := fun h0 => hg (by rw [h0]; rfl)
    simp only [classify, classifyOff]
    rw [hon, hm]
    simp [entityOf, hg0, hg]
  · intro hon hoff hst hsts
    simp only [classify, classifyOff, classifyState, classifyStates]
    rw [hon, hoff, hst, hsts]
    simp
  · intro n hn
    simp only [classify] at hn
    rcases hme : devOnMatch (proc t) with _ | g
    · simp only [hme] at hn
      rcases hn with h | h
      · exact absurd h (classifyOff_cases (proc t) n).2
      · exact (classifyOff_cases (proc t) n).1 h
    · simp only [hme] at hn
      by_cases he : entityOf g = ""
      · rw [he] at hn
        rw [if_neg (not_not_intro rfl)] at hn
        rcases hn with h | h
        · exact absurd h (classifyOff_cases (proc t) n).2
        · exact (classifyOff_cases (proc t) n).1 h
      · simp [he] at hn
        rw [← hn]
        exact he

/-- C6 witness: a clean turn-on match, a no-pattern utterance, and a clean
turn-off match, all through the main theorem. -/
theorem c6_witness :
    (classify "Turn on the Kitchen Light" = .deviceOn "kitchen" ∧
        ("kitchen" : String) ≠ "") ∧
      classify "hello world" = .none ∧
      classify "turn off bedroom fan" = .deviceOff "bedroom" := by
  refine ⟨?_, ?_, ?_⟩
  · have h := (c6_classification "Turn on the Kitchen Light").1 "kitchen"
      (by decide) (by decide)
    have h2 : pyStrip "kitchen" = "kitchen" := by decide
    rw [h2] at h
    exact h
  · exact (c6_classification "hello world").2.2.1 (by decide) (by decide)
      (by decide) (by decide)
  · have h := (c6_classification "turn off bedroom fan").2.1 (by decide)
      "bedroom" (by decide) (by decide)
    have h2 : pyStrip "bedroom" = "bedroom" := by decide
    rw [h2] at h
    exact h

/-! ### Bulk state read -/

theorem linesOf_ok_length (xs : List Py) :
    ∀ ls, linesOf xs = .ok ls → ls.length = xs.length := by
  induction xs with
  | nil =>
    intro ls h
    simp only [linesOf] at h
    cases h
    rfl
  | cons st rest ih =>
    intro ls h
    simp only [linesOf] at h
    cases h1 : stateLine st with
    | error e => rw [h1] at h; cases h
    | ok l =>
      rw [h1] at h
      cases h2 : linesOf rest with
      | error e => rw [h2] at h; cases h
      | ok ls2 =>
        rw [h2] at h
        cases h
        simp [ih ls2 h2]

/-- C7: the bulk state read summarises at most the first 20 entries; for a
35-entity backend response the summary has exactly 20 lines, and the call's
result is precisely their newline join. -/
theorem c7_get_states_truncates_to_20 (states : List Py) (ls : List String)
    (h35 : states.length = 35) (h : linesOf (states.take 20) = .ok ls) :
    ls.length = 20 ∧ get_states 200 states = .ok (joinNewline ls) ∧
      ∀ sts ls2, linesOf (List.take 20 sts) = .ok ls2 → ls2.length ≤ 20 := by
  refine ⟨?_, ?_, ?_⟩
  · rw [linesOf_ok_length _ _ h, List.length_take, h35]
    decide
  · simp [get_states, h]
  · intro sts ls2 h2
    rw [linesOf_ok_length _ _ h2]
    exact List.length_take_le 20 sts

/-- C7 witness: 35 empty entity records yield exactly the 20-fold
`"unknown: unknown"` summary. -/
theorem c7_witness :
    (List.replicate 20 "unknown: unknown").length = 20 ∧
      get_states 200 (List.replicate 35 (Py.dict [])) =
        .ok (joinNewline (List.replicate 20 "unknown: unknown")) := by
  have h := c7_get_states_truncates_to_20 (List.replicate 35 (Py.dict []))
    (List.replicate 20 "unknown: unknown") (by simp) (by rfl)
  exact ⟨h.1, h.2.1⟩

/-- C8: entity resolution lowercases, strips punctuation, collapses
whitespace to underscores, removes the first matching domain keyword, and
defaults to the `light` domain: the three specified inputs resolve exactly as
claimed. -/
theorem c8_resolve_entity_examples :
    guess_entity_id "living room light" = "light.living_room" ∧
      guess_entity_id "kitchen fan" = "fan.kitchen" ∧
      guess_entity_id "foo-bar!!" = "light.foobar" :=
  ⟨by decide, by decide, by decide⟩

/-! ### Gateway reply extraction lemmas -/

theorem scanParts_wf (parts : List Py) (h : parts.all wfPart = true) :
    scanParts parts = .ok (parts.findSome? partText) := by
  induction parts with
  | nil => rfl
  | cons p rest ih =>
    simp only [List.all_cons, Bool.and_eq_true] at h
    obtain ⟨hp, hrest⟩ := h
    cases p with
    | dict kv =>
      by_cases h1 : pyEqB (pyGet kv "type" .none) (.str "output_text") = true
      · simp [scanParts, partText, List.findSome?_cons, h1]
      · by_cases h2 : pyEqB (pyGet kv "type" .none) (.str "text") = true
        · simp [scanParts, partText, List.findSome?_cons, h1, h2]
        · simp [scanParts, partText, List.findSome?_cons, h1, h2, ih hrest]
    | str s => simp [wfPart] at hp
    | int n => simp [wfPart] at hp
    | list xs => simp [wfPart] at hp
    | none => simp [wfPart] at hp

theorem scanItems_wf (result : Py) (items : List Py)
    (h : items.all wfItem = true) :
    scanItems result items =
      (match items.findSome? itemReply with
       | some v => .ok v
       | none => .ok (.str (pyStrFn result))) := by
  induction items with
  | nil => rfl
  | cons it rest ih =>
    simp only [List.all_cons, Bool.and_eq_true] at h
    obtain ⟨hit, hrest⟩ := h
    cases it with
    | dict kv =>
      by_cases hmsg : isAssistantMessage kv = true
      · have hmsg' := hmsg
        simp only [isAssistantMessage, Bool.and_eq_true] at hmsg'
        cases hc : pyGet kv "content" (.list []) with
        | list parts =>
          have hp : parts.all wfPart = true := by
            simp only [wfItem, hmsg, if_true, hc] at hit
            exact hit
          cases hf : parts.findSome? partText with
          | some v =>
            simp [scanItems, itemReply, isAssistantMessage, hmsg'.1, hmsg'.2,
              hc, hf, List.findSome?_cons, scanParts_wf parts hp]
          | none =>
            simp [scanItems, itemReply, isAssistantMessage, hmsg'.1, hmsg'.2,
              hc, hf, List.findSome?_cons, scanParts_wf parts hp, ih hrest]
        | str s =>
          simp [scanItems, itemReply, isAssistantMessage, hmsg'.1, hmsg'.2,
            hc, List.findSome?_cons]
        | dict kv2 =>
          simp [scanItems, itemReply, isAssistantMessage, hmsg'.1, hmsg'.2,
            hc, List.findSome?_cons, ih hrest]
        | int n =>
          simp [scanItems, itemReply, isAssistantMessage, hmsg'.1, hmsg'.2,
            hc, List.findSome?_cons, ih hrest]
        | none =>
          simp [scanItems, itemReply, isAssistantMessage, hmsg'.1, hmsg'.2,
            hc, List.findSome?_cons, ih hrest]
      · have hmsg' : ¬(pyEqB (pyGet kv "type" .none) (.str "message") = true ∧
            pyEqB (pyGet kv "role" .none) (.str "assistant") = true) := by
          simpa [isAssistantMessage, Bool.and_eq_true] using hmsg
        simp [scanItems, itemReply, isAssistantMessage, List.findSome?_cons,
          Bool.and_eq_true, hmsg', ih hrest]
    | str s => simp [wfItem] at hit
    | int n => simp [wfItem] at hit
    | list xs => simp [wfItem] at hit
    | none => simp [wfItem] at hit

/-- C5 (amended): on a 200 response whose output items (and, for assistant
messages with list content, their parts) are JSON objects, the extraction
scans the output in reverse for the first assistant message, takes an
`output_text`/`text` part or a bare string content, and otherwise falls back
to a string rendering of the whole body. -/
theorem c5_extraction_amended (kv : List (String × Py)) (items : List Py)
    (hout : pyGet kv "output" (.list []) = .list items)
    (hwf : items.all wfItem = true) :
    extractReply (.dict kv) =
      (match (items.reverse).findSome? itemReply with
       | some v => .ok v
       | none => .ok (.str (pyStrFn (.dict kv)))) := by
  have hwf2 : (items.reverse).all wfItem = true := by
    simp only [List.all_eq_true] at hwf ⊢
    intro x hx
    exact hwf x (List.mem_reverse.mp hx)
  simp only [extractReply, hout, reversedSeq]
  exact scanItems_wf _ _ hwf2

/-- C5 counterexample: a 200 response whose `output` list holds a bare string
makes the extraction raise (Python `item.get` on a `str`), rather than return
a string rendering of the body as claimed. -/
theorem c5_counterexample :
    extractReply (.dict [("output", .list [.str "hello"])]) =
        .error ⟨"AttributeError: object has no attribute get"⟩ ∧
      ∀ v, extractReply (.dict [("output", .list [.str "hello"])]) ≠ .ok v := by
  refine ⟨rfl, ?_⟩
  intro v h
  rw [show extractReply (.dict [("output", .list [.str "hello"])]) =
      .error ⟨"AttributeError: object has no attribute get"⟩ from rfl] at h
  cases h

/-- C5 witness: with two assistant messages the extraction returns the later
one's text (reverse scan), through the amended theorem. -/
theorem c5_witness :
    extractReply (.dict [("output", .list
        [.dict [("type", .str "message"), ("role", .str "assistant"),
          ("content", .list [.dict [("type", .str "output_text"),
            ("text", .str "early")]])],
         .dict [("type", .str "message"), ("role", .str "assistant"),
          ("content", .list [.dict [("type", .str "text"),
            ("text", .str "later")]])]])]) = .ok (.str "later") := by
  have h := c5_extraction_amended
    [("output", .list
      [.dict [("type", .str "message"), ("role", .str "assistant"),
        ("content", .list [.dict [("type", .str "output_text"),
          ("text", .str "early")]])],
       .dict [("type", .str "message"), ("role", .str "assistant"),
        ("content", .list [.dict [("type", .str "text"),
          ("text", .str "later")]])]])]
    [.dict [("type", .str "message"), ("role", .str "assistant"),
       ("content", .list [.dict [("type", .str "output_text"),
         ("text", .str "early")]])],
     .dict [("type", .str "message"), ("role", .str "assistant"),
       ("content", .list [.dict [("type", .str "text"),
         ("text", .str "later")]])]]
    rfl rfl
  rw [h]
  rfl
